import Mathlib

/-!
BarberiaApp: appointment store, filter and status transitions.

A shallow embedding of `src/App.js` (the `BarberiaApp` component): the React
state variables are fields of `State`, each handler is a function from the
state before to the state after together with the effects it emits (HTTP
requests, alerts, console errors), and the outcome of every HTTP request is an
explicit argument.

Modelling choices:
* the text fields of a booking and of an appointment are strings; an element
  of a JSON array returned by the service is such a booking, or a value on
  which the mapper raises an exception;
* `toLowerCase` and the two locale formatters belong to the JavaScript runtime
  and are fields of `Runtime`; `asciiRuntime` is one such runtime;
* a handler that calls `fetchAppointments()` without awaiting it is followed
  until that call has settled, with no other event in between.
-/

namespace BarberiaApp

/-! ## JavaScript strings -/

/-- Lower-casing of one ASCII character: `A`..`Z` go to `a`..`z`. -/
def asciiLowerChar (c : Char) : Char :=
  if 65 ≤ c.toNat ∧ c.toNat ≤ 90 then Char.ofNat (c.toNat + 32) else c

/-- Lower-casing of a string, character by character, on the ASCII range. -/
def asciiLower (s : String) : String :=
  ⟨s.data.map asciiLowerChar⟩

/-- Whether every character of the string is an ASCII character. -/
def isAscii (s : String) : Prop :=
  ∀ c ∈ s.data, c.toNat < 128

/-- The services of the JavaScript runtime that `App.js` calls and does not
define. `toLowerCase` is `String.prototype.toLowerCase`: it is idempotent and
on ASCII strings it is `asciiLower`. `numberToLocaleString` stands for
`Number(x).toLocaleString('es-CO')` and `toLocaleDateString` for
`new Date(x).toLocaleDateString('es-CO', ...)` with the options of the source. -/
structure Runtime where
  toLowerCase : String → String
  toLowerCase_idem : ∀ s, toLowerCase (toLowerCase s) = toLowerCase s
  toLowerCase_ascii : ∀ s, isAscii s → toLowerCase s = asciiLower s
  numberToLocaleString : Int → String
  toLocaleDateString : String → String

/-- The search `s.includes(q)` on character lists: `q` occurs in `s` as a
contiguous block. -/
def includesChars : List Char → List Char → Bool
  | [], q => q.isPrefixOf []
  | c :: t, q => q.isPrefixOf (c :: t) || includesChars t q

/-- The method `String.prototype.includes`. -/
def includes (s q : String) : Bool :=
  includesChars s.data q.data

/-- The method `String.prototype.substring(0, n)`. -/
def substring0 (s : String) (n : Nat) : String :=
  ⟨s.data.take n⟩

/-! ## Data model -/

/-- A booking record as `GET /reservas` returns it (lines 37-46 read these
fields). -/
structure RawBooking where
  id_reserva : Nat
  cliente_nombre : String
  correo : String
  telefono : String
  servicio_nombre : String
  servicio_precio : Int
  barbero_nombre : String
  fecha : String
  hora : String
  estado : String
deriving DecidableEq, Repr

/-- The view model built at lines 36-48 (`createdAt` is always `null` and is
left out). -/
structure Appointment where
  id : Nat
  customerName : String
  customerEmail : String
  customerPhone : String
  service : String
  servicePrice : String
  barber : String
  date : String
  time : String
  status : String
deriving DecidableEq, Repr

/-- The state variables of the component (lines 20-25). -/
structure State where
  appointments : List Appointment
  selectedAppointment : Option Appointment
  modalVisible : Bool
  refreshing : Bool
  filterStatus : String
  searchQuery : String
deriving DecidableEq, Repr

/-- The initial values given to `useState` at lines 20-25. -/
def initialState : State :=
  { appointments := []
    selectedAppointment := none
    modalVisible := false
    refreshing := false
    filterStatus := "todas"
    searchQuery := "" }

/-! ## Filter and search (lines 118-125) -/

/-- The constant `matchesStatus` of line 119. -/
def matchesStatus (rt : Runtime) (filterStatus : String) (appointment : Appointment) : Bool :=
  filterStatus == "todas" ||
    rt.toLowerCase appointment.status == rt.toLowerCase filterStatus

/-- The constant `matchesSearch` of lines 120-123. -/
def matchesSearch (rt : Runtime) (searchQuery : String) (appointment : Appointment) : Bool :=
  searchQuery == "" ||
    includes (rt.toLowerCase appointment.customerName) (rt.toLowerCase searchQuery) ||
    includes (rt.toLowerCase appointment.barber) (rt.toLowerCase searchQuery) ||
    includes (rt.toLowerCase appointment.service) (rt.toLowerCase searchQuery)

/-- The derived list `filteredAppointments` of lines 118-125, as a function of
the three state variables it reads. -/
def filteredAppointments (rt : Runtime) (appointments : List Appointment)
    (filterStatus searchQuery : String) : List Appointment :=
  appointments.filter fun appointment =>
    matchesStatus rt filterStatus appointment && matchesSearch rt searchQuery appointment

/-! ## HTTP requests, responses and effects -/

/-- The constant `API_URL` of line 17. -/
def API_URL : String := "https://backend-barberia-gamma.vercel.app"

/-- The HTTP methods the program uses. -/
inductive Method where
  | GET
  | PUT
  | DELETE
deriving DecidableEq, Repr

/-- The argument of a `fetch` call. `body` is `none` for `null` or absent; a
body is the JSON object passed to `JSON.stringify`, given by its fields. -/
structure Request where
  method : Method
  url : String
  headers : List (String × String)
  body : Option (List (String × String))
deriving DecidableEq, Repr

/-- What the program does to the outside world. -/
inductive Effect where
  | fetch (req : Request)
  | alert (title message : String)
  | prompt (title message : String) (buttons : List String)
  | consoleError (label : String)
deriving DecidableEq, Repr

/-- An element of the array `data`: a booking record, or a JSON value on which
the callback of lines 36-48 raises a TypeError at line 45 or 46 (`null`, or a
value whose `hora` or `estado` is not a string). -/
inductive Row where
  | booking (r : RawBooking)
  | incomplete
deriving DecidableEq, Repr

/-- The value `res.json()` resolves to: an array, or a JSON value that is not
an array (on which `data.map` is not a function). -/
inductive JsonData where
  | array (rows : List Row)
  | notArray
deriving DecidableEq, Repr

/-- The body of a response as `res.json()` sees it: text that is not JSON makes
the promise reject. -/
inductive ResponseBody where
  | notJson
  | json (data : JsonData)
deriving DecidableEq, Repr

/-- An HTTP response. -/
structure Response where
  status : Nat
  body : ResponseBody
deriving DecidableEq, Repr

/-- The property `res.ok`: the status is in the range 200-299. -/
def Response.ok (res : Response) : Bool :=
  decide (200 ≤ res.status) && decide (res.status ≤ 299)

/-- How the promise returned by `fetch` settles: it rejects on a network error
and resolves with the response otherwise, whatever the status. -/
inductive FetchResult where
  | rejected
  | resolved (res : Response)
deriving DecidableEq, Repr

/-- The exceptions raised inside the `try` block of `fetchAppointments`, by the
line that raises them. -/
inductive Thrown where
  | fetchRejected
  | jsonRejected
  | mapNotAFunction
  | rowTypeError
deriving DecidableEq, Repr

/-! ## Loading the list (lines 31-60) -/

/-- The arrow function given to `data.map` at lines 36-48. -/
def transform (rt : Runtime) (r : RawBooking) : Appointment :=
  { id := r.id_reserva
    customerName := r.cliente_nombre
    customerEmail := r.correo
    customerPhone := r.telefono
    service := r.servicio_nombre
    servicePrice := "$" ++ rt.numberToLocaleString r.servicio_precio
    barber := r.barbero_nombre
    date := rt.toLocaleDateString r.fecha
    time := substring0 r.hora 5
    status := rt.toLowerCase r.estado }

/-- The request of line 33. -/
def listRequest : Request :=
  { method := Method.GET, url := API_URL ++ "/reservas", headers := [], body := none }

/-- The call `data.map(...)` of lines 36-48 on the elements of an array: the
mapped list, or the exception of the first element on which the callback
raises one. -/
def mapRows (rt : Runtime) : List Row → Except Thrown (List Appointment)
  | [] => Except.ok []
  | Row.incomplete :: _ => Except.error Thrown.rowTypeError
  | Row.booking r :: rest =>
    match mapRows rt rest with
    | Except.ok t => Except.ok (transform rt r :: t)
    | Except.error e => Except.error e

/-- The constant `transformed` of lines 33-48, or the exception that stops the
`try` block before it. -/
def transformed (rt : Runtime) (result : FetchResult) : Except Thrown (List Appointment) :=
  match result with
  | FetchResult.rejected => Except.error Thrown.fetchRejected
  | FetchResult.resolved res =>
    match res.body with
    | ResponseBody.notJson => Except.error Thrown.jsonRejected
    | ResponseBody.json JsonData.notArray => Except.error Thrown.mapNotAFunction
    | ResponseBody.json (JsonData.array rows) => mapRows rt rows

/-- The function `fetchAppointments` of lines 31-55; `result` is how the
request of line 33 settles. -/
def fetchAppointments (rt : Runtime) (result : FetchResult) (s : State) : State × List Effect :=
  match transformed rt result with
  | Except.ok t => ({ s with appointments := t }, [Effect.fetch listRequest])
  | Except.error _ =>
    (s, [Effect.fetch listRequest, Effect.consoleError "Error cargando reservas:",
      Effect.alert "Error" "No se pudieron cargar las reservas."])

/-- The function `onRefresh` of lines 57-60, once its fetch has settled. -/
def onRefresh (rt : Runtime) (result : FetchResult) (s : State) : State × List Effect :=
  let out := fetchAppointments rt result { s with refreshing := true }
  ({ out.1 with refreshing := false }, out.2)

/-! ## Status transitions (lines 62-99) -/

/-- The address of one booking, as the template of lines 65 and 89 builds it. -/
def reservaUrl (appointmentId : Nat) : String :=
  API_URL ++ "/reservas/" ++ toString appointmentId

/-- The constant `method` of line 64. -/
def statusMethod (newStatus : String) : Method :=
  if newStatus == "cancelada" then Method.DELETE else Method.PUT

/-- The request of lines 65-69. -/
def statusRequest (appointmentId : Nat) (newStatus : String) : Request :=
  { method := statusMethod newStatus
    url := reservaUrl appointmentId
    headers := [("Content-Type", "application/json")]
    body := if statusMethod newStatus = Method.PUT then some [("estado", newStatus)] else none }

/-- The `catch` block of lines 75-78. -/
def updateCatch : List Effect :=
  [Effect.consoleError "Error actualizando reserva:",
    Effect.alert "Error" "No se pudo actualizar la reserva."]

/-- The function `updateAppointmentStatus` of lines 62-79. `result` is how the
request of line 65 settles and `refetch` how the request of the
`fetchAppointments` call of line 73 settles; that call is not awaited, and the
state returned is the one reached once it has settled. -/
def updateAppointmentStatus (rt : Runtime) (appointmentId : Nat) (newStatus : String)
    (result refetch : FetchResult) (s : State) : State × List Effect :=
  match result with
  | FetchResult.rejected =>
    (s, Effect.fetch (statusRequest appointmentId newStatus) :: updateCatch)
  | FetchResult.resolved res =>
    if !res.ok then
      (s, Effect.fetch (statusRequest appointmentId newStatus) :: updateCatch)
    else
      let out := fetchAppointments rt refetch s
      ({ out.1 with modalVisible := false },
        Effect.fetch (statusRequest appointmentId newStatus) :: out.2)

/-- The request of line 89. -/
def deleteRequest (appointmentId : Nat) : Request :=
  { method := Method.DELETE, url := reservaUrl appointmentId, headers := [], body := none }

/-- The dialog of lines 82-98. -/
def deletePrompt : Effect :=
  Effect.prompt "Eliminar Cita" "¿Estás seguro de que quieres eliminar esta cita?"
    ["Cancelar", "Eliminar"]

/-- The buttons of the dialog of lines 82-98. -/
inductive PromptChoice where
  | cancelar
  | eliminar
deriving DecidableEq, Repr

/-- The `onPress` handler of lines 87-96. -/
def deleteOnPress (rt : Runtime) (appointmentId : Nat) (result refetch : FetchResult)
    (s : State) : State × List Effect :=
  match result with
  | FetchResult.rejected =>
    (s, [Effect.fetch (deleteRequest appointmentId),
      Effect.consoleError "Error al eliminar cita:",
      Effect.alert "Error" "No se pudo eliminar la cita."])
  | FetchResult.resolved _ =>
    let out := fetchAppointments rt refetch s
    ({ out.1 with modalVisible := false },
      Effect.fetch (deleteRequest appointmentId) :: out.2)

/-- The function `deleteAppointment` of lines 81-99, with the button the user
presses in its dialog. -/
def deleteAppointment (rt : Runtime) (appointmentId : Nat) (choice : PromptChoice)
    (result refetch : FetchResult) (s : State) : State × List Effect :=
  match choice with
  | PromptChoice.cancelar => (s, [deletePrompt])
  | PromptChoice.eliminar =>
    let out := deleteOnPress rt appointmentId result refetch s
    (out.1, deletePrompt :: out.2)

/-! ## The screen as a transition system -/

/-- The status values of the filter buttons (line 225). -/
def filterButtons : List String := ["todas", "confirmado", "cancelado"]

/-- What can happen to the screen, with the outcome of each request made. -/
inductive Event where
  | mount (result : FetchResult)
  | refresh (result : FetchResult)
  | pressItem (index : Nat)
  | closeModal
  | setFilterStatus (status : String)
  | setSearchQuery (text : String)
  | updateStatus (appointmentId : Nat) (newStatus : String) (result refetch : FetchResult)
  | delete (appointmentId : Nat) (choice : PromptChoice) (result refetch : FetchResult)
deriving DecidableEq, Repr

/-- One event: the effect of lines 27-29, the pull to refresh, the `onPress` of
a list item (lines 130-133), the closing of the modal (lines 153 and 159), the
two setters of the filter section, and the two handlers of the modal. -/
def step (rt : Runtime) (s : State) : Event → State × List Effect
  | Event.mount result => fetchAppointments rt result s
  | Event.refresh result => onRefresh rt result s
  | Event.pressItem index =>
    match (filteredAppointments rt s.appointments s.filterStatus s.searchQuery).get? index with
    | some appointment =>
      ({ s with selectedAppointment := some appointment, modalVisible := true }, [])
    | none => (s, [])
  | Event.closeModal => ({ s with modalVisible := false }, [])
  | Event.setFilterStatus status => ({ s with filterStatus := status }, [])
  | Event.setSearchQuery text => ({ s with searchQuery := text }, [])
  | Event.updateStatus appointmentId newStatus result refetch =>
    updateAppointmentStatus rt appointmentId newStatus result refetch s
  | Event.delete appointmentId choice result refetch =>
    deleteAppointment rt appointmentId choice result refetch s

/-- The state after a sequence of events, starting from `s`. -/
def run (rt : Runtime) (s : State) : List Event → State
  | [] => s
  | e :: es => run rt (step rt s e).1 es

/-- The states the screen can be in: those reached from the initial state. -/
def Reachable (rt : Runtime) (s : State) : Prop :=
  ∃ events, run rt initialState events = s

/-- The requests among a list of effects, in the order they are issued. -/
def requests : List Effect → List Request
  | [] => []
  | Effect.fetch req :: fx => req :: requests fx
  | _ :: fx => requests fx

/-- The alerts among a list of effects, by title and message. -/
def alerts : List Effect → List (String × String)
  | [] => []
  | Effect.alert title message :: fx => (title, message) :: alerts fx
  | _ :: fx => alerts fx

/-- A request ends in a network error or in a response that is not OK. -/
def FetchResult.Failed (result : FetchResult) : Prop :=
  result = FetchResult.rejected ∨ ∃ res, result = FetchResult.resolved res ∧ res.ok = false

/-- A request gets a success response. -/
def FetchResult.Succeeded (result : FetchResult) : Prop :=
  ∃ res, result = FetchResult.resolved res ∧ res.ok = true

/-! ## The filter as the specification words it -/

/-- The text `q` is a substring of `s`. -/
def IsSubstring (q s : String) : Prop :=
  ∃ before after : String, s = before ++ q ++ after

/-- An appointment passes the status filter `f` and the search text `q`. -/
def Visible (rt : Runtime) (f q : String) (a : Appointment) : Prop :=
  (f = "todas" ∨ rt.toLowerCase a.status = rt.toLowerCase f) ∧
  (q = "" ∨ IsSubstring (rt.toLowerCase q) (rt.toLowerCase a.customerName) ∨
    IsSubstring (rt.toLowerCase q) (rt.toLowerCase a.barber) ∨
    IsSubstring (rt.toLowerCase q) (rt.toLowerCase a.service))

/-! ## A concrete runtime and concrete data -/

/-- A runtime whose `toLowerCase` is ASCII lower-casing; its formatters render
the number in decimal and return the date text as it is. -/
def asciiRuntime : Runtime :=
  { toLowerCase := asciiLower
    toLowerCase_idem := by
      intro s
      have hchar : ∀ c, asciiLowerChar (asciiLowerChar c) = asciiLowerChar c := by
        intro c
        unfold asciiLowerChar
        by_cases h : 65 ≤ c.toNat ∧ c.toNat ≤ 90
        · simp only [h, and_self, if_true]
          obtain ⟨h1, h2⟩ := h
          generalize c.toNat = n at h1 h2
          interval_cases n <;> decide
        · simp [h]
      have hcomp : asciiLowerChar ∘ asciiLowerChar = asciiLowerChar := funext hchar
      simp [asciiLower, hcomp]
    toLowerCase_ascii := fun _ _ => rfl
    numberToLocaleString := fun n => toString n
    toLocaleDateString := fun d => d }

/-- An appointment of the example store. -/
def ana : Appointment :=
  { id := 1, customerName := "Ana", customerEmail := "ana@x.co", customerPhone := "300",
    service := "Corte", servicePrice := "$50.000", barber := "Luis",
    date := "4 de noviembre de 2026", time := "10:30", status := "confirmada" }

/-- A state with one appointment, selected and shown in the modal. -/
def anaOpen : State :=
  { initialState with
    appointments := [ana], selectedAppointment := some ana, modalVisible := true }

/-- A booking record of the example service. -/
def rawBeto : RawBooking :=
  { id_reserva := 2, cliente_nombre := "Beto", correo := "beto@x.co", telefono := "301",
    servicio_nombre := "Barba", servicio_precio := 20000, barbero_nombre := "Luis",
    fecha := "2026-11-05", hora := "11:00:00", estado := "PENDIENTE" }

/-! ## Lemmas on strings -/

theorem includesChars_iff (s q : List Char) : includesChars s q = true ↔ q <:+: s := by
  induction s with
  | nil =>
    cases q with
    | nil => simp [includesChars]
    | cons c q => simp [includesChars, List.isPrefixOf]
  | cons c t ih =>
    simp only [includesChars, Bool.or_eq_true, ih, List.isPrefixOf_iff_prefix,
      List.infix_cons_iff]

theorem includes_iff_isSubstring (s q : String) : includes s q = true ↔ IsSubstring q s := by
  unfold includes IsSubstring
  rw [includesChars_iff]
  constructor
  · rintro ⟨pre, post, h⟩
    refine ⟨⟨pre⟩, ⟨post⟩, ?_⟩
    apply String.ext
    simp [String.data_append, h]
  · rintro ⟨pre, post, h⟩
    refine ⟨pre.data, post.data, ?_⟩
    rw [h]
    simp [String.data_append]

theorem reservaUrl_ne_list (appointmentId : Nat) : reservaUrl appointmentId ≠ listRequest.url := by
  intro h
  have hlen := congrArg String.length h
  simp only [reservaUrl, listRequest, String.length_append] at hlen
  have h1 : "/reservas/".length = 10 := by decide
  have h2 : "/reservas".length = 9 := by decide
  omega

theorem matchesSearch_iff (rt : Runtime) (q : String) (a : Appointment) :
    matchesSearch rt q a = true ↔
      (q = "" ∨ IsSubstring (rt.toLowerCase q) (rt.toLowerCase a.customerName) ∨
        IsSubstring (rt.toLowerCase q) (rt.toLowerCase a.barber) ∨
        IsSubstring (rt.toLowerCase q) (rt.toLowerCase a.service)) := by
  simp only [matchesSearch, Bool.or_eq_true, beq_iff_eq, includes_iff_isSubstring, or_assoc]

theorem matchesStatus_iff (rt : Runtime) (f : String) (a : Appointment) :
    matchesStatus rt f a = true ↔
      (f = "todas" ∨ rt.toLowerCase a.status = rt.toLowerCase f) := by
  simp only [matchesStatus, Bool.or_eq_true, beq_iff_eq]

/-! ## The filter -/

/-- C1: the visible list is the Store filtered, in Store order, by a test that
holds of an appointment exactly when it passes the status filter and the search
text as the specification words them. -/
theorem filteredAppointments_exact (rt : Runtime) (store : List Appointment) (f q : String) :
    ∃ keep : Appointment → Bool,
      (∀ a, keep a = true ↔ Visible rt f q a) ∧
        filteredAppointments rt store f q = store.filter keep := by
  refine ⟨fun a => matchesStatus rt f a && matchesSearch rt q a, ?_, rfl⟩
  intro a
  simp only [Bool.and_eq_true, matchesStatus_iff, matchesSearch_iff, Visible]

/-- C9: with the filter `todas` and the empty search text the visible list is
the Store itself. -/
theorem filteredAppointments_todas_empty (rt : Runtime) (store : List Appointment) :
    filteredAppointments rt store "todas" "" = store := by
  unfold filteredAppointments
  rw [List.filter_eq_self]
  intro a _
  simp [matchesStatus, matchesSearch]

/-- C10: on a Store whose statuses are among `pendiente`, `confirmada`,
`completada` and `cancelada`, each filter button other than `todas` makes the
visible list empty, whatever the search text. -/
theorem filterButtons_select_nothing (rt : Runtime) (store : List Appointment) (f q : String)
    (hstore : ∀ a ∈ store,
      a.status ∈ ["pendiente", "confirmada", "completada", "cancelada"])
    (hf : f ∈ filterButtons) (hne : f ≠ "todas") :
    filteredAppointments rt store f q = [] := by
  unfold filteredAppointments
  rw [List.filter_eq_nil_iff]
  intro a ha
  have hs := hstore a ha
  have hms : matchesStatus rt f a = false := by
    rw [← Bool.not_eq_true, matchesStatus_iff]
    simp only [filterButtons, List.mem_cons, List.mem_singleton, List.not_mem_nil,
      or_false] at hf hs
    have hlow : ∀ t : String, isAscii t → rt.toLowerCase t = asciiLower t :=
      rt.toLowerCase_ascii
    rintro (h | h)
    · exact hne h
    · rcases hf with hf | hf | hf
      · exact hne hf
      · rcases hs with hs | hs | hs | hs <;>
        · rw [hs, hf, hlow _ (by unfold isAscii; decide),
            hlow _ (by unfold isAscii; decide)] at h
          revert h
          decide
      · rcases hs with hs | hs | hs | hs <;>
        · rw [hs, hf, hlow _ (by unfold isAscii; decide),
            hlow _ (by unfold isAscii; decide)] at h
          revert h
          decide
  simp [hms]

/-- Witness of C10 on the one-appointment store. -/
theorem filterButtons_select_nothing_witness :
    (∀ a ∈ [ana], a.status ∈ ["pendiente", "confirmada", "completada", "cancelada"]) ∧
      "confirmado" ∈ filterButtons ∧ "confirmado" ≠ "todas" ∧
      filteredAppointments asciiRuntime [ana] "confirmado" "Ana" = [] :=
  ⟨by decide, by decide, by decide,
    filterButtons_select_nothing asciiRuntime [ana] "confirmado" "Ana"
      (by decide) (by decide) (by decide)⟩

/-! ## Status transitions -/

theorem mapRows_booking (rt : Runtime) (records : List RawBooking) :
    mapRows rt (records.map Row.booking) = Except.ok (records.map (transform rt)) := by
  induction records with
  | nil => rfl
  | cons r rest ih => simp only [List.map_cons, mapRows, ih]

theorem mapRows_ok (rt : Runtime) (rows : List Row) (t : List Appointment)
    (h : mapRows rt rows = Except.ok t) :
    ∃ records : List RawBooking, t = records.map (transform rt) := by
  induction rows generalizing t with
  | nil =>
    refine ⟨[], ?_⟩
    simp only [mapRows, Except.ok.injEq] at h
    simp [← h]
  | cons row rest ih =>
    cases row with
    | incomplete => simp [mapRows] at h
    | booking r =>
      simp only [mapRows] at h
      cases hrest : mapRows rt rest with
      | error e => simp [hrest] at h
      | ok t2 =>
        simp only [hrest, Except.ok.injEq] at h
        obtain ⟨records, hrec⟩ := ih t2 hrest
        exact ⟨r :: records, by simp [← h, hrec]⟩

theorem requests_fetchAppointments (rt : Runtime) (result : FetchResult) (s : State) :
    requests (fetchAppointments rt result s).2 = [listRequest] := by
  unfold fetchAppointments
  cases transformed rt result <;> rfl

theorem updateAppointmentStatus_of_failed (rt : Runtime) (appointmentId : Nat)
    (newStatus : String) (result refetch : FetchResult) (s : State) (hfail : result.Failed) :
    updateAppointmentStatus rt appointmentId newStatus result refetch s
      = (s, Effect.fetch (statusRequest appointmentId newStatus) :: updateCatch) := by
  rcases hfail with h | ⟨res, h, hok⟩
  · rw [h]
    rfl
  · rw [h]
    simp [updateAppointmentStatus, hok]

theorem updateAppointmentStatus_of_ok (rt : Runtime) (appointmentId : Nat)
    (newStatus : String) (res : Response) (refetch : FetchResult) (s : State)
    (hok : res.ok = true) :
    updateAppointmentStatus rt appointmentId newStatus (FetchResult.resolved res) refetch s
      = ({ (fetchAppointments rt refetch s).1 with modalVisible := false },
          Effect.fetch (statusRequest appointmentId newStatus)
            :: (fetchAppointments rt refetch s).2) := by
  simp [updateAppointmentStatus, hok]

theorem failed_or_ok (result : FetchResult) :
    result.Failed ∨ ∃ res, result = FetchResult.resolved res ∧ res.ok = true := by
  cases result with
  | rejected => exact Or.inl (Or.inl rfl)
  | resolved res =>
    cases hok : res.ok
    · exact Or.inl (Or.inr ⟨res, rfl, hok⟩)
    · exact Or.inr ⟨res, rfl, hok⟩

/-- C2: the requests `updateAppointmentStatus` issues to `/reservas/{id}` are
exactly one, a DELETE without body when the new status is `cancelada` and
otherwise a PUT whose body is the object with the one field `estado`; the only
other request it can issue is the list request of the re-fetch. -/
theorem updateAppointmentStatus_request (rt : Runtime) (appointmentId : Nat)
    (newStatus : String) (result refetch : FetchResult) (s : State) :
    ∃ req : Request,
      (requests (updateAppointmentStatus rt appointmentId newStatus result refetch s).2).filter
          (fun r => r.url == API_URL ++ "/reservas/" ++ toString appointmentId) = [req] ∧
      (requests (updateAppointmentStatus rt appointmentId newStatus result refetch s).2 = [req] ∨
        requests (updateAppointmentStatus rt appointmentId newStatus result refetch s).2
          = [req, listRequest]) ∧
      req.url = API_URL ++ "/reservas/" ++ toString appointmentId ∧
      (newStatus = "cancelada" → req.method = Method.DELETE ∧ req.body = none) ∧
      (newStatus ≠ "cancelada" →
        req.method = Method.PUT ∧ req.body = some [("estado", newStatus)]) := by
  have hne : (listRequest.url == API_URL ++ "/reservas/" ++ toString appointmentId) = false := by
    rw [beq_eq_false_iff_ne]
    exact fun h => reservaUrl_ne_list appointmentId h.symm
  have hself : ((statusRequest appointmentId newStatus).url
      == API_URL ++ "/reservas/" ++ toString appointmentId) = true := by
    simp [statusRequest, reservaUrl]
  refine ⟨statusRequest appointmentId newStatus, ?_, ?_, rfl, ?_, ?_⟩
  · rcases failed_or_ok result with hfail | ⟨res, h, hok⟩
    · rw [updateAppointmentStatus_of_failed rt appointmentId newStatus result refetch s hfail]
      simp [requests, updateCatch, List.filter, hself]
    · rw [h, updateAppointmentStatus_of_ok rt appointmentId newStatus res refetch s hok]
      simp [requests, requests_fetchAppointments, List.filter, hself, hne]
  · rcases failed_or_ok result with hfail | ⟨res, h, hok⟩
    · rw [updateAppointmentStatus_of_failed rt appointmentId newStatus result refetch s hfail]
      simp [requests, updateCatch]
    · rw [h, updateAppointmentStatus_of_ok rt appointmentId newStatus res refetch s hok]
      simp [requests, requests_fetchAppointments]
  · intro h
    simp [statusRequest, statusMethod, h]
  · intro h
    simp [statusRequest, statusMethod, h]

/-- C3: when the request of `updateAppointmentStatus` fails, the error alert is
shown, the list request is not issued, and the Store, the selected appointment
and the visibility of the modal are what they were. -/
theorem updateAppointmentStatus_failure (rt : Runtime) (appointmentId : Nat)
    (newStatus : String) (result refetch : FetchResult) (s : State)
    (hfail : result.Failed) :
    alerts (updateAppointmentStatus rt appointmentId newStatus result refetch s).2
        = [("Error", "No se pudo actualizar la reserva.")] ∧
      (∀ req ∈ requests (updateAppointmentStatus rt appointmentId newStatus result refetch s).2,
        req ≠ listRequest ∧ req.url ≠ API_URL ++ "/reservas") ∧
      (updateAppointmentStatus rt appointmentId newStatus result refetch s).1.appointments
        = s.appointments ∧
      (updateAppointmentStatus rt appointmentId newStatus result refetch s).1.selectedAppointment
        = s.selectedAppointment ∧
      (updateAppointmentStatus rt appointmentId newStatus result refetch s).1.modalVisible
        = s.modalVisible := by
  have hurl : (statusRequest appointmentId newStatus).url ≠ API_URL ++ "/reservas" :=
    reservaUrl_ne_list appointmentId
  have hreq : statusRequest appointmentId newStatus ≠ listRequest :=
    fun h => hurl (congrArg Request.url h)
  rw [updateAppointmentStatus_of_failed rt appointmentId newStatus result refetch s hfail]
  refine ⟨rfl, ?_, rfl, rfl, rfl⟩
  intro req hreqmem
  simp only [requests, updateCatch, List.mem_singleton] at hreqmem
  rw [hreqmem]
  exact ⟨hreq, hurl⟩

/-- Witness of C3: a 500 response to the PUT that confirms appointment 1. -/
theorem updateAppointmentStatus_failure_witness :
    (FetchResult.resolved ⟨500, ResponseBody.notJson⟩).Failed ∧
      alerts (updateAppointmentStatus asciiRuntime 1 "confirmada"
          (FetchResult.resolved ⟨500, ResponseBody.notJson⟩) FetchResult.rejected anaOpen).2
        = [("Error", "No se pudo actualizar la reserva.")] ∧
      (updateAppointmentStatus asciiRuntime 1 "confirmada"
          (FetchResult.resolved ⟨500, ResponseBody.notJson⟩) FetchResult.rejected anaOpen).1
        = anaOpen :=
  have hfail : (FetchResult.resolved ⟨500, ResponseBody.notJson⟩).Failed :=
    Or.inr ⟨⟨500, ResponseBody.notJson⟩, rfl, by decide⟩
  ⟨hfail,
    (updateAppointmentStatus_failure asciiRuntime 1 "confirmada"
      (FetchResult.resolved ⟨500, ResponseBody.notJson⟩) FetchResult.rejected anaOpen hfail).1,
    by decide⟩

/-- C4, as stated, fails: after a success response and a re-fetch that returns
one booking, the appointment selected before the call is still selected. -/
theorem updateAppointmentStatus_success_selection_kept :
    (FetchResult.resolved ⟨200, ResponseBody.notJson⟩).Succeeded ∧
      ¬ ((updateAppointmentStatus asciiRuntime 1 "completada"
            (FetchResult.resolved ⟨200, ResponseBody.notJson⟩)
            (FetchResult.resolved ⟨200, ResponseBody.json (JsonData.array [Row.booking rawBeto])⟩)
            anaOpen).1.appointments = [transform asciiRuntime rawBeto] ∧
        (updateAppointmentStatus asciiRuntime 1 "completada"
            (FetchResult.resolved ⟨200, ResponseBody.notJson⟩)
            (FetchResult.resolved ⟨200, ResponseBody.json (JsonData.array [Row.booking rawBeto])⟩)
            anaOpen).1.selectedAppointment = none ∧
        (updateAppointmentStatus asciiRuntime 1 "completada"
            (FetchResult.resolved ⟨200, ResponseBody.notJson⟩)
            (FetchResult.resolved ⟨200, ResponseBody.json (JsonData.array [Row.booking rawBeto])⟩)
            anaOpen).1.modalVisible = false) :=
  ⟨⟨⟨200, ResponseBody.notJson⟩, rfl, by decide⟩, by decide⟩

/-- C4, amended: after a success response the list request is issued, the
Store is the mapped records whenever that request gets a 2xx response whose
body is a JSON array of booking records, the selected appointment is the one
selected before, and the modal is closed. -/
theorem updateAppointmentStatus_success (rt : Runtime) (appointmentId : Nat)
    (newStatus : String) (result refetch : FetchResult) (s : State)
    (hok : result.Succeeded) :
    requests (updateAppointmentStatus rt appointmentId newStatus result refetch s).2
        = [statusRequest appointmentId newStatus, listRequest] ∧
      (∀ (res : Response) (records : List RawBooking),
        refetch = FetchResult.resolved res → res.ok = true →
        res.body = ResponseBody.json (JsonData.array (records.map Row.booking)) →
        (updateAppointmentStatus rt appointmentId newStatus result refetch s).1.appointments
          = records.map (transform rt)) ∧
      (updateAppointmentStatus rt appointmentId newStatus result refetch s).1.selectedAppointment
        = s.selectedAppointment ∧
      (updateAppointmentStatus rt appointmentId newStatus result refetch s).1.modalVisible
        = false := by
  obtain ⟨res, h, hres⟩ := hok
  rw [h, updateAppointmentStatus_of_ok rt appointmentId newStatus res refetch s hres]
  refine ⟨?_, ?_, ?_, rfl⟩
  · simp [requests, requests_fetchAppointments]
  · intro res2 records hre _ hbody
    simp only [hre, fetchAppointments, transformed, hbody, mapRows_booking]
  · unfold fetchAppointments
    cases transformed rt refetch <;> rfl

/-- Witness of C4 amended: a 200 response to the PUT and a re-fetch that gets a
200 response with one booking record. -/
theorem updateAppointmentStatus_success_witness :
    (FetchResult.resolved ⟨200, ResponseBody.notJson⟩).Succeeded ∧
      (updateAppointmentStatus asciiRuntime 1 "completada"
          (FetchResult.resolved ⟨200, ResponseBody.notJson⟩)
          (FetchResult.resolved ⟨200, ResponseBody.json (JsonData.array [Row.booking rawBeto])⟩)
          anaOpen).1.appointments = [transform asciiRuntime rawBeto] ∧
      (updateAppointmentStatus asciiRuntime 1 "completada"
          (FetchResult.resolved ⟨200, ResponseBody.notJson⟩)
          (FetchResult.resolved ⟨200, ResponseBody.json (JsonData.array [Row.booking rawBeto])⟩)
          anaOpen).1.selectedAppointment = some ana :=
  have hok : (FetchResult.resolved ⟨200, ResponseBody.notJson⟩).Succeeded :=
    ⟨⟨200, ResponseBody.notJson⟩, rfl, by decide⟩
  ⟨hok,
    (updateAppointmentStatus_success asciiRuntime 1 "completada"
      (FetchResult.resolved ⟨200, ResponseBody.notJson⟩)
      (FetchResult.resolved ⟨200, ResponseBody.json (JsonData.array [Row.booking rawBeto])⟩)
      anaOpen hok).2.1 ⟨200, ResponseBody.json (JsonData.array [Row.booking rawBeto])⟩
      [rawBeto] rfl (by decide) rfl,
    (updateAppointmentStatus_success asciiRuntime 1 "completada"
      (FetchResult.resolved ⟨200, ResponseBody.notJson⟩)
      (FetchResult.resolved ⟨200, ResponseBody.json (JsonData.array [Row.booking rawBeto])⟩)
      anaOpen hok).2.2.1⟩

/-- C5 at a failing input: the user confirms the deletion and the DELETE gets a
500 response; no error alert is shown, the list request is issued, the Store is
replaced by its result and the modal is closed. -/
theorem deleteAppointment_response_not_ok :
    (FetchResult.resolved ⟨500, ResponseBody.notJson⟩).Failed ∧
      alerts (deleteAppointment asciiRuntime 1 PromptChoice.eliminar
          (FetchResult.resolved ⟨500, ResponseBody.notJson⟩)
          (FetchResult.resolved ⟨200, ResponseBody.json (JsonData.array [Row.booking rawBeto])⟩)
          anaOpen).2 = [] ∧
      requests (deleteAppointment asciiRuntime 1 PromptChoice.eliminar
          (FetchResult.resolved ⟨500, ResponseBody.notJson⟩)
          (FetchResult.resolved ⟨200, ResponseBody.json (JsonData.array [Row.booking rawBeto])⟩)
          anaOpen).2 = [deleteRequest 1, listRequest] ∧
      (deleteAppointment asciiRuntime 1 PromptChoice.eliminar
          (FetchResult.resolved ⟨500, ResponseBody.notJson⟩)
          (FetchResult.resolved ⟨200, ResponseBody.json (JsonData.array [Row.booking rawBeto])⟩)
          anaOpen).1.appointments = [transform asciiRuntime rawBeto] ∧
      (deleteAppointment asciiRuntime 1 PromptChoice.eliminar
          (FetchResult.resolved ⟨500, ResponseBody.notJson⟩)
          (FetchResult.resolved ⟨200, ResponseBody.json (JsonData.array [Row.booking rawBeto])⟩)
          anaOpen).1.modalVisible = false :=
  ⟨Or.inr ⟨⟨500, ResponseBody.notJson⟩, rfl, by decide⟩,
    by decide, by decide, by decide, by decide⟩

/-! ## Loading the list -/

/-- C6: when the list request ends in a network error or its body is not JSON,
the `try` block stops at line 33 or 34, before the mapper; the error alert is
shown and the state, the Store in it, is what it was. -/
theorem fetchAppointments_failure (rt : Runtime) (result : FetchResult) (s : State)
    (hfail : result = FetchResult.rejected ∨
      ∃ status, result = FetchResult.resolved ⟨status, ResponseBody.notJson⟩) :
    (transformed rt result = Except.error Thrown.fetchRejected ∨
        transformed rt result = Except.error Thrown.jsonRejected) ∧
      alerts (fetchAppointments rt result s).2
        = [("Error", "No se pudieron cargar las reservas.")] ∧
      (fetchAppointments rt result s).1.appointments = s.appointments ∧
      (fetchAppointments rt result s).1 = s := by
  rcases hfail with h | ⟨status, h⟩
  · rw [h]
    exact ⟨Or.inl rfl, rfl, rfl, rfl⟩
  · rw [h]
    exact ⟨Or.inr rfl, rfl, rfl, rfl⟩

/-- Witness of C6: a response whose body is not JSON, on a Store of one
appointment. -/
theorem fetchAppointments_failure_witness :
    (FetchResult.resolved ⟨200, ResponseBody.notJson⟩ = FetchResult.rejected ∨
        ∃ status, FetchResult.resolved ⟨200, ResponseBody.notJson⟩
          = FetchResult.resolved ⟨status, ResponseBody.notJson⟩) ∧
      (fetchAppointments asciiRuntime
        (FetchResult.resolved ⟨200, ResponseBody.notJson⟩) anaOpen).1.appointments = [ana] :=
  ⟨Or.inr ⟨200, rfl⟩,
    (fetchAppointments_failure asciiRuntime (FetchResult.resolved ⟨200, ResponseBody.notJson⟩)
      anaOpen (Or.inr ⟨200, rfl⟩)).2.2.1⟩

/-- C7 at a failing input: a 500 response whose body is the empty JSON array;
no alert is shown and the Store of one appointment is replaced by the empty
list. -/
theorem fetchAppointments_status_ignored :
    (⟨500, ResponseBody.json (JsonData.array [])⟩ : Response).ok = false ∧
      alerts (fetchAppointments asciiRuntime
        (FetchResult.resolved ⟨500, ResponseBody.json (JsonData.array [])⟩) anaOpen).2 = [] ∧
      (fetchAppointments asciiRuntime
        (FetchResult.resolved ⟨500, ResponseBody.json (JsonData.array [])⟩) anaOpen).1.appointments
        = [] ∧
      anaOpen.appointments = [ana] :=
  ⟨by decide, by decide, by decide, by decide⟩

/-! ## The status invariant -/

theorem transform_status_lower (rt : Runtime) (rows : List RawBooking) :
    ∀ a ∈ rows.map (transform rt), rt.toLowerCase a.status = a.status := by
  intro a ha
  obtain ⟨r, _, hr⟩ := List.mem_map.mp ha
  rw [← hr]
  exact rt.toLowerCase_idem r.estado

theorem fetchAppointments_appointments (rt : Runtime) (result : FetchResult) (s : State) :
    (fetchAppointments rt result s).1.appointments = s.appointments ∨
      ∃ rows : List RawBooking, (fetchAppointments rt result s).1.appointments = rows.map (transform rt) := by
  unfold fetchAppointments
  cases h : transformed rt result with
  | error e => exact Or.inl rfl
  | ok t =>
    right
    cases result with
    | rejected => simp [transformed] at h
    | resolved res =>
      obtain ⟨status, body⟩ := res
      cases body with
      | notJson => simp [transformed] at h
      | json data =>
        cases data with
        | notArray => simp [transformed] at h
        | array rows =>
          simp only [transformed] at h
          exact mapRows_ok rt rows t h

theorem step_appointments (rt : Runtime) (s : State) (e : Event) :
    (step rt s e).1.appointments = s.appointments ∨
      ∃ rows : List RawBooking, (step rt s e).1.appointments = rows.map (transform rt) := by
  cases e with
  | mount result => exact fetchAppointments_appointments rt result s
  | refresh result =>
    exact fetchAppointments_appointments rt result { s with refreshing := true }
  | pressItem index =>
    simp only [step]
    cases (filteredAppointments rt s.appointments s.filterStatus s.searchQuery).get? index
      <;> exact Or.inl rfl
  | closeModal => exact Or.inl rfl
  | setFilterStatus status => exact Or.inl rfl
  | setSearchQuery text => exact Or.inl rfl
  | updateStatus appointmentId newStatus result refetch =>
    rcases failed_or_ok result with hfail | ⟨res, h, hok⟩
    · simp only [step]
      rw [updateAppointmentStatus_of_failed rt appointmentId newStatus result refetch s hfail]
      exact Or.inl rfl
    · simp only [step]
      rw [h, updateAppointmentStatus_of_ok rt appointmentId newStatus res refetch s hok]
      exact fetchAppointments_appointments rt refetch s
  | delete appointmentId choice result refetch =>
    cases choice with
    | cancelar => exact Or.inl rfl
    | eliminar =>
      cases result with
      | rejected => exact Or.inl rfl
      | resolved res => exact fetchAppointments_appointments rt refetch s

theorem run_status_lower (rt : Runtime) (events : List Event) :
    ∀ s : State, (∀ a ∈ s.appointments, rt.toLowerCase a.status = a.status) →
      ∀ a ∈ (run rt s events).appointments, rt.toLowerCase a.status = a.status := by
  induction events with
  | nil => exact fun s hs => hs
  | cons e es ih =>
    intro s hs
    apply ih
    rcases step_appointments rt s e with h | ⟨rows, h⟩
    · rw [h]
      exact hs
    · rw [h]
      exact transform_status_lower rt rows

/-- C8: in every state reached from the initial state by fetches, refreshes,
status transitions, deletions, filter and search changes, selections and
closings of the modal, whatever each request returned, the status of every
appointment of the Store equals its own lower-casing. -/
theorem store_status_lowercase (rt : Runtime) (s : State) (hreach : Reachable rt s) :
    ∀ a ∈ s.appointments, rt.toLowerCase a.status = a.status := by
  obtain ⟨events, hrun⟩ := hreach
  rw [← hrun]
  apply run_status_lower rt events initialState
  intro a ha
  simp [initialState] at ha

/-- Witness of C8: the state after the first fetch returned one booking whose
`estado` is in upper case. -/
theorem store_status_lowercase_witness :
    Reachable asciiRuntime
        { initialState with appointments := [transform asciiRuntime rawBeto] } ∧
      ∀ a ∈ [transform asciiRuntime rawBeto],
        asciiRuntime.toLowerCase a.status = a.status :=
  have hreach : Reachable asciiRuntime
      { initialState with appointments := [transform asciiRuntime rawBeto] } :=
    ⟨[Event.mount (FetchResult.resolved ⟨200, ResponseBody.json (JsonData.array [Row.booking rawBeto])⟩)],
      rfl⟩
  ⟨hreach, store_status_lowercase asciiRuntime _ hreach⟩

end BarberiaApp
